import Mathlib

/-!
Shallow embedding of the blitz-mustang effect compositor core
(packages/blitz-mustang/src): the `Region` value type, the `Effect`
model with its native/GPU classification, feature extraction
(substring-based numeric parsing), the shared element tracker, the
`MustangCompositor::apply_scene_effects` entry point, and the
`SecurityGating` policy layer.

Modelling conventions:
- `f32` screen coordinates and parsed numbers are embedded as `ℚ`
  (exact arithmetic on the field operations and comparisons the code
  performs; none of the code paths relevant to the properties below
  involve transcendental functions).
- Rust `String`/`&str` values that undergo substring scanning are
  embedded as `List Char`; opaque identifiers remain `String`.
- `std::time::Instant` timestamps are embedded as `Nat` instants; the
  `Instant::now()` observed by a tracker operation is passed explicitly.
- The `Mutex<HashMap<String, TrackedElement>>` behind
  `SharedElementTracker` is embedded as the list of tracked elements as
  seen with the lock held (the claims under study all condition on the
  lock being acquired); the `HashMap` key-uniqueness invariant appears
  as a `Nodup` hypothesis where a proof needs it.
-/

/-- Region bounds in screen coordinates (`compositor/region.rs`). -/
structure Region where
  x : ℚ
  y : ℚ
  width : ℚ
  height : ℚ
  deriving DecidableEq, Repr

namespace Region

/-- `Region::new` -/
def new (x y width height : ℚ) : Region :=
  { x := x, y := y, width := width, height := height }

/-- `Region::contains`: half-open on both axes. -/
def contains (a : Region) (px py : ℚ) : Bool :=
  decide (px ≥ a.x) && decide (px < a.x + a.width) &&
  decide (py ≥ a.y) && decide (py < a.y + a.height)

/-- `Region::area` -/
def area (a : Region) : ℚ := a.width * a.height

/-- `Region::expand` -/
def expand (a : Region) (padding : ℚ) : Region :=
  { x := a.x - padding
    y := a.y - padding
    width := a.width + padding * 2
    height := a.height + padding * 2 }

/-- `Region::contract`: clamps negative resulting dimensions to zero. -/
def contract (a : Region) (padding : ℚ) : Region :=
  { x := a.x + padding
    y := a.y + padding
    width := max (a.width - padding * 2) 0
    height := max (a.height - padding * 2) 0 }

/-- `Region::center` -/
def center (a : Region) : ℚ × ℚ := (a.x + a.width / 2, a.y + a.height / 2)

/-- `Region::intersects`: the negated four-way separation test. -/
def intersects (a b : Region) : Bool :=
  !(decide (a.x ≥ b.x + b.width) || decide (a.x + a.width ≤ b.x) ||
    decide (a.y ≥ b.y + b.height) || decide (a.y + a.height ≤ b.y))

/-- `Region::intersection`: `None` when `!intersects`, else the overlap. -/
def intersection (a b : Region) : Option Region :=
  if a.intersects b then
    let x1 := max a.x b.x
    let y1 := max a.y b.y
    let x2 := min (a.x + a.width) (b.x + b.width)
    let y2 := min (a.y + a.height) (b.y + b.height)
    some (Region.new x1 y1 (x2 - x1) (y2 - y1))
  else
    none

/-- `Region::union`: bounding box of both. -/
def union (a b : Region) : Region :=
  let x1 := min a.x b.x
  let y1 := min a.y b.y
  let x2 := max (a.x + a.width) (b.x + b.width)
  let y2 := max (a.y + a.height) (b.y + b.height)
  Region.new x1 y1 (x2 - x1) (y2 - y1)

end Region

/-- Types of Mustang effects (`effect.rs`). -/
inductive EffectType where
  | BackdropBlur
  | Transform2D
  | ColorAdjust
  | Clip
  deriving DecidableEq, Repr

/-- Quality levels for blur effects. -/
inductive BlurQuality where
  | Low
  | Medium
  | High
  | Ultra
  deriving DecidableEq, Repr

instance : Inhabited BlurQuality := ⟨BlurQuality.High⟩

/-- Parameters for color adjustment. -/
structure ColorAdjustParams where
  red_multiplier : ℚ
  green_multiplier : ℚ
  blue_multiplier : ℚ
  red_offset : ℚ
  green_offset : ℚ
  blue_offset : ℚ
  deriving DecidableEq, Repr

instance : Inhabited ColorAdjustParams :=
  ⟨{ red_multiplier := 1, green_multiplier := 1, blue_multiplier := 1,
     red_offset := 0, green_offset := 0, blue_offset := 0 }⟩

/-- Parameters for blur effect. -/
structure BlurParams where
  radius : ℚ
  passes : Nat
  quality : BlurQuality
  deriving DecidableEq, Repr

instance : Inhabited BlurParams :=
  ⟨{ radius := 10, passes := 2, quality := BlurQuality.High }⟩

/-- Parameters for 2D transform. -/
structure TransformParams where
  scale_x : ℚ
  scale_y : ℚ
  translate_x : ℚ
  translate_y : ℚ
  rotate_degrees : ℚ
  pivot_x : ℚ
  pivot_y : ℚ
  deriving DecidableEq, Repr

instance : Inhabited TransformParams :=
  ⟨{ scale_x := 1, scale_y := 1, translate_x := 0, translate_y := 0,
     rotate_degrees := 0, pivot_x := 1/2, pivot_y := 1/2 }⟩

/-- A Mustang effect to be applied to a region (`effect.rs`). -/
structure Effect where
  effect_type : EffectType
  selector : String
  region : Region
  blur_params : Option BlurParams
  transform_params : Option TransformParams
  color_params : Option ColorAdjustParams
  z_index : Int
  deriving DecidableEq, Repr

namespace Effect

/-- `Effect::blur`: region defaults to the full viewport. -/
def blur (selector : String) (radius : ℚ) (viewport_width viewport_height : Nat) : Effect :=
  { effect_type := EffectType.BackdropBlur
    selector := selector
    region := Region.new 0 0 (viewport_width : ℚ) (viewport_height : ℚ)
    blur_params := some { radius := radius, passes := 2, quality := BlurQuality.High }
    transform_params := none
    color_params := none
    z_index := 0 }

/-- `Effect::transform`: region defaults to the full viewport. -/
def transform (selector : String) (params : TransformParams)
    (viewport_width viewport_height : Nat) : Effect :=
  { effect_type := EffectType.Transform2D
    selector := selector
    region := Region.new 0 0 (viewport_width : ℚ) (viewport_height : ℚ)
    blur_params := none
    transform_params := some params
    color_params := none
    z_index := 0 }

/-- `Effect::color_adjust`: region defaults to a zero-size rectangle. -/
def color_adjust (selector : String) (params : ColorAdjustParams) : Effect :=
  { effect_type := EffectType.ColorAdjust
    selector := selector
    region := Region.new 0 0 0 0
    blur_params := none
    transform_params := none
    color_params := some params
    z_index := 0 }

/-- `Effect::clip`: no selector; z-order fixed at 9999 (clips always top). -/
def clip (region : Region) : Effect :=
  { effect_type := EffectType.Clip
    selector := ""
    region := region
    blur_params := none
    transform_params := none
    color_params := none
    z_index := 9999 }

/-- `Effect::with_region` -/
def with_region (e : Effect) (region : Region) : Effect :=
  { e with region := region }

/-- `Effect::with_z_index` -/
def with_z_index (e : Effect) (z_index : Int) : Effect :=
  { e with z_index := z_index }

/-- `Effect::is_native`: true for BackdropBlur, Transform2D and Clip. -/
def is_native (e : Effect) : Bool :=
  match e.effect_type with
  | EffectType.BackdropBlur => true
  | EffectType.Transform2D => true
  | EffectType.Clip => true
  | EffectType.ColorAdjust => false

/-- `Effect::requires_gpu_compute`: true exactly for ColorAdjust. -/
def requires_gpu_compute (e : Effect) : Bool :=
  match e.effect_type with
  | EffectType.ColorAdjust => true
  | _ => false

end Effect

/-- One primitive operation recorded against a `PaintScene`.  The scene
is modelled at the granularity the claims need: which primitive is
invoked and with which region/parameters; the affine matrix built for
`Transform2D` (a product of kurbo translations, a rotation and a scale)
is summarised by the `TransformParams` it was derived from. -/
inductive SceneOp where
  | fillRect (region : Region)
  | pushLayer (region : Region) (params : TransformParams)
  | pushClipLayer (region : Region)
  deriving DecidableEq, Repr

/-- A `PaintScene` as the sequence of primitive operations pushed onto it. -/
abbrev Scene := List SceneOp

/-- `ApplyEffect::apply_to_scene` for `Effect` (`effect.rs`): BackdropBlur
fills a placeholder rectangle over the region when `blur_params` is
present; Transform2D pushes a transformed layer when `transform_params`
is present; Clip pushes a clip layer; ColorAdjust is a no-op on the
native path. -/
def apply_to_scene (e : Effect) (scene : Scene) : Scene :=
  match e.effect_type with
  | EffectType.BackdropBlur =>
    match e.blur_params with
    | some _ => scene ++ [SceneOp.fillRect e.region]
    | none => scene
  | EffectType.Transform2D =>
    match e.transform_params with
    | some params => scene ++ [SceneOp.pushLayer e.region params]
    | none => scene
  | EffectType.Clip => scene ++ [SceneOp.pushClipLayer e.region]
  | EffectType.ColorAdjust => scene

/-- Result of applying scene effects (`lib.rs`). -/
structure SceneEffectResult where
  native_applied : Nat
  deferred_effects : List Effect
  deriving DecidableEq, Repr

namespace SceneEffectResult

/-- `SceneEffectResult::is_complete` -/
def is_complete (r : SceneEffectResult) : Bool := r.deferred_effects.isEmpty

/-- `SceneEffectResult::deferred_count` -/
def deferred_count (r : SceneEffectResult) : Nat := r.deferred_effects.length

end SceneEffectResult

/-- One iteration of the loop in `MustangCompositor::apply_scene_effects`:
a native effect is applied to the scene and counted, any other effect is
appended (cloned) to the deferred list. -/
def applyStep (acc : Scene × Nat × List Effect) (e : Effect) : Scene × Nat × List Effect :=
  if e.is_native then
    (apply_to_scene e acc.1, acc.2.1 + 1, acc.2.2)
  else
    (acc.1, acc.2.1, acc.2.2 ++ [e])

/-- `MustangCompositor::apply_scene_effects` (`lib.rs`): walks the effect
list once in input order, returning the mutated scene together with the
`SceneEffectResult`.  (The compositor's `config` and `effect_cache`
fields are not read by this method, so the embedding takes the scene and
effect list directly.) -/
def apply_scene_effects (scene : Scene) (effects : List Effect) :
    Scene × SceneEffectResult :=
  let r := effects.foldl applyStep (scene, 0, [])
  (r.1, { native_applied := r.2.1, deferred_effects := r.2.2 })

/-! String-scanning primitives used by feature extraction
(`compositor/mod.rs`).  Raw CSS value strings are `List Char`; the
substrings handled by the code are ASCII, so Rust byte offsets past a
match coincide with character offsets past the match. -/

/-- `str::find(pattern)`: index of the first occurrence of `pat`. -/
def findSubstr (pat : List Char) : List Char → Option Nat
  | [] => if pat = [] then some 0 else none
  | c :: rest =>
    if pat.isPrefixOf (c :: rest) then some 0
    else (findSubstr pat rest).map (· + 1)

/-- `str::find(char)`: index of the first occurrence of `ch`. -/
def findCharIdx (ch : Char) : List Char → Option Nat
  | [] => none
  | c :: rest => if c = ch then some 0 else (findCharIdx ch rest).map (· + 1)

/-- ASCII whitespace, the fragment of `char::is_whitespace` the scanned
values can contain. -/
def isWs (c : Char) : Bool := c = ' ' || c = '\t' || c = '\n' || c = '\r'

/-- `str::trim` -/
def trimWs (s : List Char) : List Char :=
  ((s.dropWhile isWs).reverse.dropWhile isWs).reverse

/-- Fuel-driven worker for `str::trim_end_matches(suffix)`.  Each
iteration with a nonempty matching suffix shortens the string by at
least one character, so `s.length` fuel always reaches the fixpoint. -/
def stripSuffixAllFuel : Nat → List Char → List Char → List Char
  | 0, _, s => s
  | fuel + 1, suf, s =>
    if suf ≠ [] ∧ suf.isSuffixOf s then
      stripSuffixAllFuel fuel suf (s.take (s.length - suf.length))
    else s

/-- `str::trim_end_matches(suffix)`: repeatedly removes the suffix. -/
def stripSuffixAll (suf : List Char) (s : List Char) : List Char :=
  stripSuffixAllFuel s.length suf s

/-- Decimal digit test. -/
def isDigitCh (c : Char) : Bool := decide ('0' ≤ c) && decide (c ≤ '9')

/-- Value of a digit string (most significant first). -/
def digitsToNat (s : List Char) : Nat :=
  s.foldl (fun n c => n * 10 + (c.toNat - 48)) 0

/-- `str::parse::<f32>()`, restricted to the finite decimal literals the
scanned CSS values carry: an optional sign, then digits with at most one
decimal point and at least one digit overall.  Exact value as a
rational; anything else fails. -/
def parseNum (s : List Char) : Option ℚ :=
  let core : ℚ → List Char → Option ℚ := fun sgn rest =>
    match findCharIdx '.' rest with
    | none =>
      if rest ≠ [] ∧ rest.all isDigitCh then some (sgn * (digitsToNat rest : ℚ))
      else none
    | some i =>
      let intP := rest.take i
      let fracP := rest.drop (i + 1)
      if (intP ≠ [] ∨ fracP ≠ []) ∧ intP.all isDigitCh ∧ fracP.all isDigitCh ∧
          findCharIdx '.' fracP = none then
        some (sgn * ((digitsToNat intP : ℚ) + (digitsToNat fracP : ℚ) / (10 : ℚ) ^ fracP.length))
      else none
  match s with
  | '-' :: rest => core (-1) rest
  | '+' :: rest => core 1 rest
  | rest => core 1 rest

/-- `str::split(',')` -/
def splitComma : List Char → List (List Char)
  | [] => [[]]
  | c :: rest =>
    if c = ',' then [] :: splitComma rest
    else
      match splitComma rest with
      | [] => [[c]]
      | p :: ps => (c :: p) :: ps

def blurTok : List Char := ("blur(").toList
def scaleTok : List Char := ("scale(").toList
def translateTok : List Char := ("translate(").toList
def rotateTok : List Char := ("rotate(").toList
def brightnessTok : List Char := ("brightness(").toList
def pxTok : List Char := ("px").toList
def degTok : List Char := ("deg").toList

/-- `parse_blur_amount` (`compositor/mod.rs`): extract the number from
`blur(…)`, stripping a trailing `px`; 10.0 on any failure. -/
def parse_blur_amount (value : List Char) : ℚ :=
  match findSubstr blurTok value with
  | some start =>
    let after := value.drop (start + 5)
    match findCharIdx ')' after with
    | some e =>
      let numStr := after.take e
      let num := trimWs (stripSuffixAll pxTok (trimWs numStr))
      (parseNum num).getD 10
    | none => 10
  | none => 10

/-- `parse_transform` (`compositor/mod.rs`): independently scans for
`scale(`, `translate(` and `rotate(` substrings, each field defaulting
on its own parse failure. -/
def parse_transform (value : List Char) : TransformParams :=
  let params : TransformParams := default
  let params :=
    match findSubstr scaleTok value with
    | some start =>
      let after := value.drop (start + 6)
      match findCharIdx ')' after with
      | some e =>
        match parseNum (after.take e) with
        | some scale => { params with scale_x := scale, scale_y := scale }
        | none => params
      | none => params
    | none => params
  let params :=
    match findSubstr translateTok value with
    | some start =>
      let after := value.drop (start + 10)
      match findCharIdx ')' after with
      | some e =>
        let parts := splitComma (after.take e)
        let params :=
          if parts.length ≥ 1 then
            { params with
              translate_x := (parseNum (stripSuffixAll pxTok (trimWs (parts.getD 0 [])))).getD 0 }
          else params
        if parts.length ≥ 2 then
          { params with
            translate_y := (parseNum (stripSuffixAll pxTok (trimWs (parts.getD 1 [])))).getD 0 }
        else params
      | none => params
    | none => params
  match findSubstr rotateTok value with
  | some start =>
    let after := value.drop (start + 7)
    match findCharIdx ')' after with
    | some e =>
      { params with
        rotate_degrees := (parseNum (stripSuffixAll degTok (trimWs (after.take e)))).getD 0 }
    | none => params
  | none => params

/-- `parse_color_adjust` (`compositor/mod.rs`): only `brightness(n)` is
recognized; success sets all three multipliers uniformly. -/
def parse_color_adjust (value : List Char) : ColorAdjustParams :=
  let params : ColorAdjustParams := default
  match findSubstr brightnessTok value with
  | some start =>
    let after := value.drop (start + 11)
    match findCharIdx ')' after with
    | some e =>
      match parseNum (after.take e) with
      | some brightness =>
        { params with
          red_multiplier := brightness
          green_multiplier := brightness
          blue_multiplier := brightness }
      | none => params
    | none => params
  | none => params

/-- `parse_clip_region` (`compositor/mod.rs`): the raw value is not
parsed; always the full viewport. -/
def parse_clip_region (_value : List Char) (viewport_width viewport_height : Nat) : Region :=
  Region.new 0 0 (viewport_width : ℚ) (viewport_height : ℚ)

/-- Types of synthetic CSS features (`compositor/mod.rs`). -/
inductive FeatureType where
  | BackdropFilter
  | Transform
  | ColorAdjust
  | Clip
  deriving DecidableEq, Repr

/-- Synthetic feature from CSS normalization. -/
structure SyntheticFeature where
  feature_type : FeatureType
  selector : String
  original_value : List Char

/-- `effect_from_feature` (`compositor/mod.rs`). -/
def effect_from_feature (feature : SyntheticFeature)
    (viewport_width viewport_height : Nat) : Option Effect :=
  match feature.feature_type with
  | FeatureType.BackdropFilter =>
    some (Effect.blur feature.selector (parse_blur_amount feature.original_value)
      viewport_width viewport_height)
  | FeatureType.Transform =>
    some (Effect.transform feature.selector (parse_transform feature.original_value)
      viewport_width viewport_height)
  | FeatureType.ColorAdjust =>
    some (Effect.color_adjust feature.selector (parse_color_adjust feature.original_value))
  | FeatureType.Clip =>
    some (Effect.clip (parse_clip_region feature.original_value
      viewport_width viewport_height))

/-- Tracked element with position and metadata
(`compositor/element_tracker.rs`).  `last_updated` is a `Nat` instant. -/
structure TrackedElement where
  id : String
  region : Region
  element_type : String
  classes : List String
  last_updated : Nat
  deriving DecidableEq, Repr

namespace TrackedElement

/-- `TrackedElement::new`, observing instant `now`. -/
def new (id : String) (region : Region) (element_type : String) (now : Nat) :
    TrackedElement :=
  { id := id, region := region, element_type := element_type,
    classes := [], last_updated := now }

/-- `TrackedElement::with_class` -/
def with_class (e : TrackedElement) (c : String) : TrackedElement :=
  { e with classes := e.classes ++ [c] }

/-- `TrackedElement::update_region`, observing instant `now`. -/
def update_region (e : TrackedElement) (region : Region) (now : Nat) : TrackedElement :=
  { e with region := region, last_updated := now }

end TrackedElement

/-- The `HashMap<String, TrackedElement>` inside `SharedElementTracker`,
as seen with the lock held: the list of entries.  The map's key
uniqueness is the `Nodup` of the ids. -/
abbrev TrackerMap := List TrackedElement

namespace SharedElementTracker

/-- `SharedElementTracker::track`: insert or overwrite by id. -/
def track (m : TrackerMap) (e : TrackedElement) : TrackerMap :=
  if m.any (fun x => x.id = e.id) then
    m.map (fun x => if x.id = e.id then e else x)
  else
    m ++ [e]

/-- `SharedElementTracker::update_position`, observing instant `now`:
`get_mut(id)` followed by `update_region` on the entry, if any. -/
def update_position (m : TrackerMap) (id : String) (region : Region) (now : Nat) :
    TrackerMap :=
  m.map (fun e => if e.id = id then e.update_region region now else e)

/-- `SharedElementTracker::get` -/
def get (m : TrackerMap) (id : String) : Option TrackedElement :=
  m.find? (fun e => e.id = id)

/-- `SharedElementTracker::remove` -/
def remove (m : TrackerMap) (id : String) : TrackerMap :=
  m.filter (fun e => ¬ e.id = id)

/-- `SharedElementTracker::query_region` -/
def query_region (m : TrackerMap) (query : Region) : List TrackedElement :=
  m.filter (fun e => e.region.intersects query)

/-- The staleness test of `cleanup_stale`:
`now.duration_since(e.last_updated) > max_age` (strictly older). -/
def isStale (now max_age : Nat) (e : TrackedElement) : Bool :=
  decide (max_age < now - e.last_updated)

/-- `SharedElementTracker::cleanup_stale`, observing instant `now`:
first scan for the ids of stale entries, then remove them one by one;
returns the new map and the count of removed ids. -/
def cleanup_stale (m : TrackerMap) (max_age now : Nat) : TrackerMap × Nat :=
  let to_remove : List String := (m.filter (isStale now max_age)).map (fun e => e.id)
  let count := to_remove.length
  (to_remove.foldl (fun acc id => remove acc id) m, count)

end SharedElementTracker

/-- Security gating integration (`compositor/integration.rs`). -/
structure SecurityGating where
  enabled : Bool
  security_regions : List Region
  deriving Repr

namespace SecurityGating

/-- `SecurityGating::new` -/
def new : SecurityGating := { enabled := true, security_regions := [] }

/-- `SecurityGating::enabled` (builder) -/
def set_enabled (g : SecurityGating) (enabled : Bool) : SecurityGating :=
  { g with enabled := enabled }

/-- `SecurityGating::add_security_region` (builder) -/
def add_security_region (g : SecurityGating) (region : Region) : SecurityGating :=
  { g with security_regions := g.security_regions ++ [region] }

/-- `SecurityGating::is_point_secured`: any secured region contains the
point.  Note: reads only `security_regions`, never `enabled`. -/
def is_point_secured (g : SecurityGating) (x y : ℚ) : Bool :=
  g.security_regions.any (fun region => region.contains x y)

/-- `SecurityGating::get_intersecting_regions` -/
def get_intersecting_regions (g : SecurityGating) (area : Region) : List Region :=
  g.security_regions.filter (fun region => region.intersects area)

/-- `SecurityGating::apply_security_clipping`: pass-through in every
branch (clipping-mask application is unimplemented); the gate only
chooses between two identical copies of the buffer. -/
def apply_security_clipping (g : SecurityGating) (buffer : List Nat) : List Nat :=
  if ¬ g.enabled ∨ g.security_regions = [] then buffer
  else buffer

end SecurityGating

/-- Number of populated optional parameter fields of an `Effect`. -/
def populatedParamCount (e : Effect) : Nat :=
  (if e.blur_params.isSome then 1 else 0) +
  (if e.transform_params.isSome then 1 else 0) +
  (if e.color_params.isSome then 1 else 0)

/-- The parameter field(s) an effect of each kind carries: BackdropBlur
carries exactly `blur_params`, Transform2D exactly `transform_params`,
ColorAdjust exactly `color_params`, and Clip carries none. -/
def paramsAgree (e : Effect) : Prop :=
  match e.effect_type with
  | EffectType.BackdropBlur =>
    e.blur_params.isSome = true ∧ e.transform_params = none ∧ e.color_params = none
  | EffectType.Transform2D =>
    e.blur_params = none ∧ e.transform_params.isSome = true ∧ e.color_params = none
  | EffectType.ColorAdjust =>
    e.blur_params = none ∧ e.transform_params = none ∧ e.color_params.isSome = true
  | EffectType.Clip =>
    e.blur_params = none ∧ e.transform_params = none ∧ e.color_params = none

/-- A concrete tracked element used to instantiate tracker theorems. -/
def elemA : TrackedElement :=
  { id := "a", region := Region.new 0 0 10 10, element_type := "div",
    classes := [], last_updated := 0 }

/-! Claim theorems -/

/-- C2: `is_native` is true exactly for BackdropBlur, Transform2D and
Clip, `requires_gpu_compute` is true exactly for ColorAdjust, and for
every effect exactly one of the two predicates holds, partitioning the
four kinds 3:1. -/
theorem C2_native_gpu_partition (e : Effect) :
    (e.is_native = true ↔
      (e.effect_type = EffectType.BackdropBlur ∨
       e.effect_type = EffectType.Transform2D ∨
       e.effect_type = EffectType.Clip))
    ∧ (e.requires_gpu_compute = true ↔ e.effect_type = EffectType.ColorAdjust)
    ∧ ((e.is_native = true ∧ e.requires_gpu_compute = false) ∨
       (e.is_native = false ∧ e.requires_gpu_compute = true)) := by
  cases h : e.effect_type <;>
    simp [Effect.is_native, Effect.requires_gpu_compute, h]

/-- C6: `intersection` returns `none` exactly when `intersects` is
false, and otherwise returns the max/min overlap rectangle; absence is
the optional result, never an error. -/
theorem C6_intersection_characterisation (a b : Region) :
    (a.intersection b = none ↔ a.intersects b = false)
    ∧ (a.intersects b = true →
        a.intersection b = some (Region.new (max a.x b.x) (max a.y b.y)
          (min (a.x + a.width) (b.x + b.width) - max a.x b.x)
          (min (a.y + a.height) (b.y + b.height) - max a.y b.y))) := by
  cases h : a.intersects b <;> simp [Region.intersection, h]

/-- Witness for C6 at a concrete overlapping pair. -/
theorem C6_intersection_characterisation_witness :
    (Region.new 0 0 100 100).intersection (Region.new 50 50 100 100) =
      some (Region.new 50 50 50 50) := by
  have h := (C6_intersection_characterisation
    (Region.new 0 0 100 100) (Region.new 50 50 100 100)).2
    (by norm_num [Region.intersects, Region.new])
  rw [h]
  simp only [Region.new, Option.some.injEq, Region.mk.injEq]
  norm_num

/-- C7 counterexample: the claim asserts `a.intersects(a)` also for
regions of zero width or height, but a degenerate region does not
intersect itself under the half-open separation test. -/
theorem C7_counterexample :
    (Region.new 0 0 0 0).intersects (Region.new 0 0 0 0) = false := by
  norm_num [Region.intersects, Region.new]

/-- C7 (amended): self-intersection holds for every region of positive
width and height. -/
theorem C7_self_intersects (a : Region) (hw : 0 < a.width) (hh : 0 < a.height) :
    a.intersects a = true := by
  simp only [Region.intersects, Bool.not_eq_true', Bool.or_eq_false_iff,
    decide_eq_false_iff_not, not_le, ge_iff_le]
  refine ⟨⟨⟨?_, ?_⟩, ?_⟩, ?_⟩ <;> linarith

/-- Witness for C7 (amended) at a concrete region. -/
theorem C7_self_intersects_witness :
    (Region.new 0 0 100 100).intersects (Region.new 0 0 100 100) = true :=
  C7_self_intersects (Region.new 0 0 100 100) (by decide) (by decide)

/-- C8: the contract/expand round trip restores the region whenever the
padding is nonnegative and both dimensions strictly exceed twice the
padding (so the zero-clamp in `contract` does not fire). -/
theorem C8_contract_expand_roundtrip (a : Region) (p : ℚ)
    (_hp : 0 ≤ p) (hw : 2 * p < a.width) (hh : 2 * p < a.height) :
    (a.contract p).expand p = a := by
  obtain ⟨ax, ay, aw, ah⟩ := a
  simp only [Region.contract, Region.expand, Region.mk.injEq] at *
  refine ⟨by ring, by ring, ?_, ?_⟩
  · rw [max_eq_left (by linarith)]; ring
  · rw [max_eq_left (by linarith)]; ring

/-- Witness for C8 at a concrete region and padding. -/
theorem C8_contract_expand_roundtrip_witness :
    ((Region.new 10 20 100 50).contract 5).expand 5 = Region.new 10 20 100 50 :=
  C8_contract_expand_roundtrip (Region.new 10 20 100 50) 5
    (by decide) (by norm_num [Region.new]) (by norm_num [Region.new])

/-- C10: `is_point_secured` never reads the `enabled` flag — two gates
with the same secured-region list agree at every point regardless of
`enabled` — and it holds exactly when some secured region contains the
point. -/
theorem C10_point_secured_ignores_enabled (e1 e2 : Bool) (regs : List Region) (x y : ℚ) :
    SecurityGating.is_point_secured ⟨e1, regs⟩ x y =
      SecurityGating.is_point_secured ⟨e2, regs⟩ x y
    ∧ (SecurityGating.is_point_secured ⟨e1, regs⟩ x y = true ↔
        ∃ r ∈ regs, r.contains x y = true) := by
  refine ⟨rfl, ?_⟩
  simp [SecurityGating.is_point_secured, List.any_eq_true]

/-- C3 counterexample: `Effect::clip` is a public constructor, yet the
effect it builds populates none of the three optional parameter fields,
so "exactly one of the three parameter fields is populated" fails for
clip-constructed effects. -/
theorem C3_counterexample :
    populatedParamCount (Effect.clip (Region.new 0 0 100 100)) = 0
    ∧ ¬ populatedParamCount (Effect.clip (Region.new 0 0 100 100)) = 1 := by
  constructor <;> simp [populatedParamCount, Effect.clip]

/-- C3 (amended): every public constructor populates exactly the
parameter fields its `effect_type` calls for — `blur`, `transform` and
`color_adjust` populate exactly one field, the one agreeing with the
kind, while `clip` populates none — and `with_region` / `with_z_index`
preserve this agreement. -/
theorem C3_constructor_params_agree :
    (∀ (sel : String) (radius : ℚ) (vw vh : Nat),
      paramsAgree (Effect.blur sel radius vw vh)
      ∧ populatedParamCount (Effect.blur sel radius vw vh) = 1)
    ∧ (∀ (sel : String) (params : TransformParams) (vw vh : Nat),
      paramsAgree (Effect.transform sel params vw vh)
      ∧ populatedParamCount (Effect.transform sel params vw vh) = 1)
    ∧ (∀ (sel : String) (params : ColorAdjustParams),
      paramsAgree (Effect.color_adjust sel params)
      ∧ populatedParamCount (Effect.color_adjust sel params) = 1)
    ∧ (∀ r : Region,
      paramsAgree (Effect.clip r) ∧ populatedParamCount (Effect.clip r) = 0)
    ∧ (∀ (e : Effect) (r : Region), paramsAgree e → paramsAgree (e.with_region r))
    ∧ (∀ (e : Effect) (z : Int), paramsAgree e → paramsAgree (e.with_z_index z)) := by
  refine ⟨?_, ?_, ?_, ?_, ?_, ?_⟩
  · intro sel radius vw vh
    exact ⟨⟨rfl, rfl, rfl⟩, rfl⟩
  · intro sel params vw vh
    exact ⟨⟨rfl, rfl, rfl⟩, rfl⟩
  · intro sel params
    exact ⟨⟨rfl, rfl, rfl⟩, rfl⟩
  · intro r
    exact ⟨⟨rfl, rfl, rfl⟩, rfl⟩
  · intro e r h
    cases he : e.effect_type <;>
      simp [paramsAgree, Effect.with_region, he] at h ⊢ <;> exact h
  · intro e z h
    cases he : e.effect_type <;>
      simp [paramsAgree, Effect.with_z_index, he] at h ⊢ <;> exact h

/-- Witness for C3 (amended): the preservation clauses applied to a
concretely constructed blur effect. -/
theorem C3_constructor_params_agree_witness :
    paramsAgree ((Effect.blur "x" 15 800 600).with_region (Region.new 10 10 200 100))
    ∧ paramsAgree ((Effect.blur "x" 15 800 600).with_z_index 10) :=
  ⟨C3_constructor_params_agree.2.2.2.2.1 (Effect.blur "x" 15 800 600)
      (Region.new 10 10 200 100) ⟨rfl, rfl, rfl⟩,
   C3_constructor_params_agree.2.2.2.2.2 (Effect.blur "x" 15 800 600) 10
      ⟨rfl, rfl, rfl⟩⟩

/-- The loop of `apply_scene_effects`, characterised: starting from any
accumulator, it applies the native effects to the scene in input order,
adds the number of native effects to the counter, and appends the
non-native effects (in input order) to the deferred list. -/
theorem foldl_applyStep (effects : List Effect) (s : Scene) (n : Nat) (d : List Effect) :
    effects.foldl applyStep (s, n, d) =
      (effects.foldl (fun sc e => if e.is_native then apply_to_scene e sc else sc) s,
       n + (effects.filter (fun e => e.is_native)).length,
       d ++ effects.filter (fun e => !e.is_native)) := by
  induction effects generalizing s n d with
  | nil => simp
  | cons e rest ih =>
    cases h : e.is_native <;>
      simp [applyStep, h, ih, List.filter_cons, Nat.add_assoc, Nat.add_comm,
        Nat.add_left_comm, List.append_assoc]

/-- The two complementary filters of an effect list split its length. -/
theorem filter_native_length_split (l : List Effect) :
    (l.filter (fun e => e.is_native)).length +
      (l.filter (fun e => !e.is_native)).length = l.length := by
  induction l with
  | nil => rfl
  | cons e rest ih =>
    cases h : e.is_native <;> simp [List.filter_cons, h] <;> omega

/-- C1: `apply_scene_effects` processes the input list once in order:
the native effects are applied to the scene in input order and counted
in `native_applied`, the non-native effects are appended (cloned) to
`deferred_effects` in input order, `native_applied` plus the deferred
length equals the input length, and `is_complete` holds iff the
deferred list is empty; on one blur plus one color-adjust effect the
result is `native_applied = 1` with a single deferred `ColorAdjust`. -/
theorem C1_apply_scene_effects_accounting :
    (∀ (scene : Scene) (effects : List Effect),
      (apply_scene_effects scene effects).2.native_applied =
          (effects.filter (fun e => e.is_native)).length
      ∧ (apply_scene_effects scene effects).2.deferred_effects =
          effects.filter (fun e => !e.is_native)
      ∧ (apply_scene_effects scene effects).2.native_applied +
          (apply_scene_effects scene effects).2.deferred_effects.length = effects.length
      ∧ ((apply_scene_effects scene effects).2.is_complete = true ↔
          (apply_scene_effects scene effects).2.deferred_effects = [])
      ∧ (apply_scene_effects scene effects).1 =
          effects.foldl (fun sc e => if e.is_native then apply_to_scene e sc else sc) scene)
    ∧ (∀ (params : ColorAdjustParams),
      (apply_scene_effects [] [Effect.blur "sel" 10 800 600,
          Effect.color_adjust "sel" params]).2.native_applied = 1
      ∧ (apply_scene_effects [] [Effect.blur "sel" 10 800 600,
          Effect.color_adjust "sel" params]).2.deferred_effects =
            [Effect.color_adjust "sel" params]
      ∧ (apply_scene_effects [] [Effect.blur "sel" 10 800 600,
          Effect.color_adjust "sel" params]).2.deferred_effects.map
            (fun e => e.effect_type) = [EffectType.ColorAdjust]) := by
  constructor
  · intro scene effects
    have hfold := foldl_applyStep effects scene 0 []
    refine ⟨?_, ?_, ?_, ?_, ?_⟩
    · simp [apply_scene_effects, hfold]
    · simp [apply_scene_effects, hfold]
    · simp [apply_scene_effects, hfold]
      exact filter_native_length_split effects
    · simp [apply_scene_effects, SceneEffectResult.is_complete, List.isEmpty_iff]
    · simp [apply_scene_effects, hfold]
  · intro params
    refine ⟨rfl, ?_, ?_⟩ <;>
      simp [apply_scene_effects, applyStep, Effect.is_native, Effect.blur,
        Effect.color_adjust, apply_to_scene]

/-- C4: backdrop-filter extraction always produces a blur effect whose
radius comes from `parse_blur_amount` (never a failure outcome); the
radius is the number found between `blur(` and the following `)` with a
trailing `px` stripped, and is exactly 10 whenever the `blur(` token is
missing, the closing parenthesis is missing, or the remaining number
fails to parse; in particular both `blur(10px)` and `blur(bogus)` give
radius 10. -/
theorem C4_blur_extraction :
    (∀ (sel : String) (raw : List Char) (vw vh : Nat),
      effect_from_feature ⟨FeatureType.BackdropFilter, sel, raw⟩ vw vh =
        some (Effect.blur sel (parse_blur_amount raw) vw vh)
      ∧ (findSubstr blurTok raw = none → parse_blur_amount raw = 10)
      ∧ (∀ start, findSubstr blurTok raw = some start →
          (findCharIdx ')' (raw.drop (start + 5)) = none →
            parse_blur_amount raw = 10)
          ∧ (∀ stop, findCharIdx ')' (raw.drop (start + 5)) = some stop →
              parse_blur_amount raw =
                (parseNum (trimWs (stripSuffixAll pxTok
                  (trimWs ((raw.drop (start + 5)).take stop))))).getD 10)))
    ∧ parse_blur_amount (("backdrop-filter: blur(10px)").toList) = 10
    ∧ parse_blur_amount (("backdrop-filter: blur(bogus)").toList) = 10 := by
  refine ⟨?_, ?_, ?_⟩
  · intro sel raw vw vh
    refine ⟨rfl, ?_, ?_⟩
    · intro h
      simp [parse_blur_amount, h]
    · intro start hs
      constructor
      · intro h2
        simp [parse_blur_amount, hs, h2]
      · intro stop he
        simp [parse_blur_amount, hs, he]
  · simp +decide [parse_blur_amount, findSubstr, findCharIdx, blurTok, pxTok,
      trimWs, isWs, stripSuffixAll, stripSuffixAllFuel, parseNum, digitsToNat,
      isDigitCh]
  · simp +decide [parse_blur_amount, findSubstr, findCharIdx, blurTok, pxTok,
      trimWs, isWs, stripSuffixAll, stripSuffixAllFuel, parseNum, digitsToNat,
      isDigitCh]

/-- Witness for C4 at concrete inputs covering each hypothesis. -/
theorem C4_blur_extraction_witness :
    parse_blur_amount (("x").toList) = 10
    ∧ parse_blur_amount (("blur(4").toList) = 10 := by
  constructor
  · exact (C4_blur_extraction.1 "s" (("x").toList) 800 600).2.1 (by decide)
  · exact ((C4_blur_extraction.1 "s" (("blur(4").toList) 800 600).2.2 0
      (by decide)).1 (by decide)

/-- `update_position` with an untracked id leaves the map unchanged. -/
theorem update_position_absent (id : String) (region : Region) (now : Nat) :
    ∀ m : TrackerMap, (∀ e ∈ m, e.id ≠ id) →
      SharedElementTracker.update_position m id region now = m := by
  intro m
  induction m with
  | nil => intro _; rfl
  | cons e rest ih =>
    intro h
    have he : ¬ e.id = id := h e (List.mem_cons_self e rest)
    have hr := ih (fun x hx => h x (List.mem_cons_of_mem e hx))
    simp only [SharedElementTracker.update_position, List.map_cons] at hr ⊢
    rw [if_neg he, hr]

/-- C9: when the lock is acquired, `update_position(id, region)` leaves
the tracker unchanged when no element has the id; when an element
matches, only its `region` and `last_updated` fields change — its `id`,
`element_type` and `classes`, and every non-matching element, are left
as they were. -/
theorem C9_update_position_frame (m : TrackerMap) (id : String)
    (region : Region) (now : Nat) :
    ((∀ e ∈ m, e.id ≠ id) → SharedElementTracker.update_position m id region now = m)
    ∧ SharedElementTracker.update_position m id region now =
        m.map (fun e => if e.id = id then TrackedElement.update_region e region now else e)
    ∧ (∀ e : TrackedElement,
        (TrackedElement.update_region e region now).id = e.id
        ∧ (TrackedElement.update_region e region now).element_type = e.element_type
        ∧ (TrackedElement.update_region e region now).classes = e.classes
        ∧ (TrackedElement.update_region e region now).region = region
        ∧ (TrackedElement.update_region e region now).last_updated = now)
    ∧ (∀ e : TrackedElement, e.id ≠ id →
        (if e.id = id then TrackedElement.update_region e region now else e) = e) := by
  refine ⟨update_position_absent id region now m, rfl, ?_, ?_⟩
  · intro e
    exact ⟨rfl, rfl, rfl, rfl, rfl⟩
  · intro e he
    exact if_neg he

/-- Witness for C9: updating an untracked id is a no-op on a concrete
one-element tracker. -/
theorem C9_update_position_frame_witness :
    SharedElementTracker.update_position [elemA] "zzz" (Region.new 1 1 2 2) 7 = [elemA] :=
  (C9_update_position_frame [elemA] "zzz" (Region.new 1 1 2 2) 7).1 (by decide)

/-- Removing a list of ids one by one keeps exactly the elements whose
id is in none of them. -/
theorem foldl_remove_eq_filter (ids : List String) :
    ∀ m : TrackerMap,
      ids.foldl (fun acc id => SharedElementTracker.remove acc id) m =
        m.filter (fun e => decide (e.id ∉ ids)) := by
  induction ids with
  | nil => intro m; simp
  | cons i rest ih =>
    intro m
    rw [List.foldl_cons, ih]
    unfold SharedElementTracker.remove
    rw [List.filter_filter]
    apply List.filter_congr
    intro e _
    by_cases h1 : e.id = i <;> by_cases h2 : e.id ∈ rest <;> simp [h1, h2]

/-- C5: when the lock is acquired, `cleanup_stale(max_age)` removes
exactly the elements whose `last_updated` is more than `max_age` before
the call instant, keeps every other element, and returns the number
removed; immediately after an `update_position` a `cleanup_stale(0)`
removes nothing, and once more than `max_age` has passed since the last
update the element is removed with count 1. -/
theorem C5_cleanup_stale_spec :
    (∀ (m : TrackerMap) (max_age now : Nat), (m.map (fun e => e.id)).Nodup →
      (SharedElementTracker.cleanup_stale m max_age now).1 =
          m.filter (fun e => !SharedElementTracker.isStale now max_age e)
      ∧ (SharedElementTracker.cleanup_stale m max_age now).2 =
          (m.filter (SharedElementTracker.isStale now max_age)).length)
    ∧ (∀ (e : TrackedElement) (r : Region) (t : Nat),
        SharedElementTracker.cleanup_stale
            (SharedElementTracker.update_position [e] e.id r t) 0 t =
          (SharedElementTracker.update_position [e] e.id r t, 0))
    ∧ (∀ (e : TrackedElement) (max_age now : Nat),
        max_age < now - e.last_updated →
        SharedElementTracker.cleanup_stale [e] max_age now = ([], 1)) := by
  refine ⟨?_, ?_, ?_⟩
  · intro m max_age now hnodup
    constructor
    · simp only [SharedElementTracker.cleanup_stale]
      rw [foldl_remove_eq_filter
        ((m.filter (SharedElementTracker.isStale now max_age)).map (fun e => e.id)) m]
      apply List.filter_congr
      intro e he
      by_cases hs : SharedElementTracker.isStale now max_age e = true
      · have hmem : e.id ∈
            (m.filter (SharedElementTracker.isStale now max_age)).map (fun x => x.id) :=
          List.mem_map_of_mem _ (List.mem_filter.mpr ⟨he, hs⟩)
        simp [hmem, hs]
      · have hnotmem : e.id ∉
            (m.filter (SharedElementTracker.isStale now max_age)).map (fun x => x.id) := by
          intro hmem
          obtain ⟨x, hx, hxid⟩ := List.mem_map.mp hmem
          have hxm : x ∈ m := (List.mem_filter.mp hx).1
          have hxs := (List.mem_filter.mp hx).2
          have hxe : x = e := List.inj_on_of_nodup_map hnodup hxm he hxid
          rw [hxe] at hxs
          exact hs hxs
        simp only [Bool.not_eq_true] at hs
        simp [hnotmem, hs]
    · simp [SharedElementTracker.cleanup_stale]
  · intro e r t
    simp [SharedElementTracker.cleanup_stale, SharedElementTracker.update_position,
      TrackedElement.update_region, SharedElementTracker.isStale, Nat.sub_self,
      SharedElementTracker.remove]
  · intro e max_age now h
    simp [SharedElementTracker.cleanup_stale, SharedElementTracker.isStale,
      SharedElementTracker.remove, h]

/-- Witness for C5 on a concrete one-element tracker: a stale element is
removed with count 1, a fresh sweep keeps the non-stale element, and a
sweep right after an update removes nothing. -/
theorem C5_cleanup_stale_spec_witness :
    SharedElementTracker.cleanup_stale [elemA] 3 10 = ([], 1)
    ∧ (SharedElementTracker.cleanup_stale [elemA] 5 2).1 =
        [elemA].filter (fun e => !SharedElementTracker.isStale 2 5 e)
    ∧ SharedElementTracker.cleanup_stale
          (SharedElementTracker.update_position [elemA] elemA.id (Region.new 1 1 2 2) 7) 0 7 =
        (SharedElementTracker.update_position [elemA] elemA.id (Region.new 1 1 2 2) 7, 0) :=
  ⟨C5_cleanup_stale_spec.2.2 elemA 3 10 (by decide),
   (C5_cleanup_stale_spec.1 [elemA] 5 2 (by decide)).1,
   C5_cleanup_stale_spec.2.1 elemA (Region.new 1 1 2 2) 7⟩
